import Mathlib

/-!
Verification development for the `compliance results` subcommand
(`pkg/jx/cmd/compliance_results.go`).

The Go source is shallowly embedded: pure helpers (`status`, `statuses`,
`filterTests`, `printResults`, the `StatusSortedTestCases` ordering) become
Lean functions; the streaming/concurrent parts (`untarResults`, the error
group inside `Run`) are embedded as functions over explicit models of the
tar stream, the `io.Pipe`, and the buffered error channel, recording which
resources were closed and which values were delivered.

External collaborators (the sonobuoy client, ginkgo JUnit records, the
gzip reader, the JUnit parser) are abstracted as oracle data carried by an
environment record, exactly at the call boundaries the Go file uses.
-/

namespace Jx

/-- A `reporters.JUnitTestCase` (external ginkgo type), abstracted to the
fields the Go file consumes: `Name`, and the three external predicates
`results.Skipped`, `results.Failed`, `results.Passed` from sonobuoy,
modelled as independent boolean marks (the predicates are external and
opaque to this file, so they are kept fully general). -/
structure JUnitTestCase where
  name : String
  skippedMark : Bool
  failureMark : Bool
  passedMark : Bool
deriving DecidableEq

/-- `results.Skipped tc` (external sonobuoy predicate). -/
def resultsSkipped (tc : JUnitTestCase) : Bool := tc.skippedMark

/-- `results.Failed tc` (external sonobuoy predicate). -/
def resultsFailed (tc : JUnitTestCase) : Bool := tc.failureMark

/-- `results.Passed tc` (external sonobuoy predicate). -/
def resultsPassed (tc : JUnitTestCase) : Bool := tc.passedMark

/-- `func status(junitResult reporters.JUnitTestCase) string`. -/
def status (junitResult : JUnitTestCase) : String :=
  if resultsSkipped junitResult then "SKIPPED"
  else if resultsFailed junitResult then "FAILED"
  else if resultsPassed junitResult then "PASSED"
  else "UNKNOWN"

/-- `var statuses = map[string]int{...}` as an association list. -/
def statuses : List (String × Nat) :=
  [("FAILED", 0), ("PASSED", 1), ("SKIPPED", 2), ("UNKNOWN", 3)]

/-- Go map indexing `statuses[k]`: the stored value, or the zero value `0`
when the key is absent. -/
def statusesLookup (k : String) : Nat :=
  match statuses.lookup k with
  | some v => v
  | none => 0

/-- `func (s StatusSortedTestCases) Less(i, j int) bool` as a binary
predicate on elements: `statuses[status(a)] < statuses[status(b)]`. -/
def statusSortedLess (a b : JUnitTestCase) : Bool :=
  decide (statusesLookup (status a) < statusesLookup (status b))

/-- The order in which `sort.Sort` leaves a `StatusSortedTestCases` slice:
consecutive elements satisfy the negation of `Less` the other way around,
which for this `Less` is priority-nondecreasing. -/
def StatusSortedTestCases.rel (a b : JUnitTestCase) : Prop :=
  statusesLookup (status a) ≤ statusesLookup (status b)

instance : DecidableRel StatusSortedTestCases.rel :=
  fun a b => Nat.decLe _ _

instance : IsTotal JUnitTestCase StatusSortedTestCases.rel :=
  ⟨fun a b => Nat.le_total _ _⟩

instance : IsTrans JUnitTestCase StatusSortedTestCases.rel :=
  ⟨fun _ _ _ => Nat.le_trans⟩

/-- `sort.Sort(StatusSortedTestCases(testResults))`: `sort.Sort` is the Go
standard library's (unstable) comparison sort; it is modelled by a
sorting algorithm meeting the same contract, namely a permutation of the
input ordered by the `Less` method of the `sort.Interface` value. -/
def StatusSortedTestCases.sortGo (l : List JUnitTestCase) : List JUnitTestCase :=
  List.insertionSort StatusSortedTestCases.rel l

/-- `sort.Sort` orders by the interface's `Less`; the modelled relation is
exactly the complement of `Less` swapped, as the sort contract demands. -/
theorem statusSortedTestCases_rel_iff_not_less (a b : JUnitTestCase) :
    StatusSortedTestCases.rel a b ↔ statusSortedLess b a = false := by
  simp [StatusSortedTestCases.rel, statusSortedLess, Nat.not_lt]

/-- `func filterTests(predicate func(...) bool, testCases []...) []...`:
builds a fresh slice, appending exactly the cases the predicate accepts. -/
def filterTests (predicate : JUnitTestCase → Bool)
    (testCases : List JUnitTestCase) : List JUnitTestCase :=
  testCases.foldl (fun out tc => if predicate tc then out ++ [tc] else out) []

/-- The predicate `Run` passes to `filterTests`: keep non-skipped cases. -/
def runFilterPredicate (tc : JUnitTestCase) : Bool :=
  ! resultsSkipped tc

/-- Column alignment values of the external `util` table package. -/
inductive Alignment where
  | left
  | center
  | right
deriving DecidableEq

/-- The state of the table built by `o.CreateTable()` at render time:
its two alignment settings and its rows in insertion order. -/
structure Table where
  align1 : Alignment
  align2 : Alignment
  rows : List (String × String)
deriving DecidableEq

/-- `func (o *ComplianceResultsOptions) printResults(junitResults []reporters.JUnitTestCase)`:
the table it renders. -/
def printResults (junitResults : List JUnitTestCase) : Table :=
  { align1 := Alignment.left
    align2 := Alignment.left
    rows := ("STATUS", "TEST") :: junitResults.map (fun t => (status t, t.name)) }

/-- One entry of the outer tar stream, as `tar.Reader` presents it:
the header name, the bytes readable from the entry body, and an optional
read error hit while copying the body (after `content` was produced). -/
structure TarEntry where
  name : String
  content : List Nat
  copyErr : Option String
deriving DecidableEq

/-- How the outer tar stream terminates after its listed entries:
end of stream (`io.EOF`) or some other read error from `Next`. -/
inductive TarEnd where
  | eof
  | readErr (msg : String)
deriving DecidableEq

/-- The state of one side of an `io.Pipe` once the writing goroutine has
exited: the bytes it wrote and whether the writer end was closed. -/
structure PipeState where
  data : List Nat
  writerClosed : Bool
deriving DecidableEq

/-- The state of a buffered `chan error` (capacity 1) once its producer is
done with it: the buffered values still to be received and whether the
channel was closed. -/
structure ChanState where
  buf : List String
  closed : Bool
deriving DecidableEq

/-- Receiving on this channel value can never complete: true for the nil
channel, and for an open channel with nothing buffered and no producer. -/
def recvBlocksForever : Option ChanState → Bool
  | none => true
  | some c => c.buf.isEmpty && !c.closed

/-- The literal of `errors.New` in the EOF branch of `untarResults`. -/
def noArchiveMsg : String := "no compliance results archive found"

/-- The suffix `untarResults` matches entry names against. -/
def tarGzSuffix : String := ".tar.gz"

/-- `strings.HasSuffix(header.Name, ".tar.gz")`: suffix test on the
name's character sequence. -/
def hasTarGzSuffix (n : String) : Bool :=
  tarGzSuffix.data.isSuffixOf n.data

/-- What the background copy goroutine leaves in the channel it was given:
the copy error, if the body read failed, else nothing. -/
def copyBuf (e : TarEntry) : List String :=
  match e.copyErr with
  | some m => [m]
  | none => []

/-- Everything observable about one call to `untarResults`: the returned
reader (`none` models a nil `io.Reader`), the returned error channel
(`none` models a nil channel), the final state of the channel handed to
the background copy goroutine (when one was spawned), and the entries the
loop visited via `tarReader.Next()`. -/
structure UntarReturn where
  reader : Option PipeState
  errch : Option ChanState
  spawnedChan : Option ChanState
  visited : List TarEntry
deriving DecidableEq

/-- `func untarResults(src io.Reader) (io.Reader, <-chan error)`.

Faithful to the source: on a non-EOF `Next` error the error is sent on
`ec` and `(nil, ec)` is returned; on EOF with no match the literal
"not found" error is sent on `ec` and `(nil, ec)` is returned; on the
first name matching `.tar.gz` a pipe is created, the goroutine copies the
entry body into it (sending a copy error on `ec`, then closing `ec` and
the writer via its two defers), and the function returns the pipe's read
end together with a NIL channel — the `return reader, nil` of line 190. -/
def untarResults : List TarEntry → TarEnd → UntarReturn
  | [], TarEnd.eof =>
      { reader := none
        errch := some { buf := [noArchiveMsg], closed := false }
        spawnedChan := none
        visited := [] }
  | [], TarEnd.readErr m =>
      { reader := none
        errch := some { buf := [m], closed := false }
        spawnedChan := none
        visited := [] }
  | e :: rest, ending =>
      if hasTarGzSuffix e.name then
        { reader := some { data := e.content, writerClosed := true }
          errch := none
          spawnedChan := some { buf := copyBuf e, closed := true }
          visited := [e] }
      else
        let r := untarResults rest ending
        { reader := r.reader
          errch := r.errch
          spawnedChan := r.spawnedChan
          visited := e :: r.visited }

/-- `aggregation.CompleteStatus` (external sonobuoy constant). -/
def completeStatus : String := "complete"

/-- `errors.Wrap(err, msg)`: the wrapped error's message. -/
def wrapErr (msg e : String) : String := msg ++ ": " ++ e

def clientWrapMsg : String := "could not create the compliance client"

def statusWrapMsg : String := "failed to retrieve the compliance status"

def gzipWrapMsg : String := "could not create a gzip reader for compliance results "

def parseWrapMsg : String := "could not get the results of the compliance tests from the archive"

def extractWrapMsg : String := "could not extract the compliance results from archive"

def waitWrapMsg : String := "failed to retrieve the results"

/-- Oracle data for the external collaborators one `Run` execution talks
to: the compliance client, the retrieval channel, the gzip constructor and
the JUnit parser, plus the scheduling choice the error group makes when
both of its tasks fail. -/
structure Env where
  clientErr : Option String
  statusErr : Option String
  statusVal : String
  stream : List TarEntry
  streamEnd : TarEnd
  retrieveErr : Option String
  gzipErr : Option String
  parseRes : Except String (List JUnitTestCase)
  raceRetrieveFirst : Bool

/-- How one `Run` invocation ends: a returned value, a runtime panic, or
blocking forever. -/
inductive RunOutcome where
  | ret (err : Option String)
  | panicked
  | deadlock
deriving DecidableEq

/-- The observable result of `Run`: its outcome, whether
`cc.RetrieveResults` was invoked, the table rendered by `printResults`
(when reached), and whether the "not ready" informational message was
logged. -/
structure RunResult where
  outcome : RunOutcome
  retrieveCalled : Bool
  rendered : Option Table
  infoLogged : Bool
deriving DecidableEq

/-- How the second error-group task (the closure unwrapping, unzipping,
parsing and printing) ends. It can never return nil: the success path
must first receive on the nil channel `untarResults` returned. -/
inductive TaskBResult where
  | errRet (e : String)
  | deadlocked (t : Table)
  | panickedNilReader
deriving DecidableEq

/-- `eg.Wait()` over the two tasks: the first non-nil error wins; when
both err, which was recorded first is a scheduling choice. -/
def egWait (retrieveFirst : Bool) (a b : Option String) : Option String :=
  match a, b with
  | some ea, some eb => if retrieveFirst then some ea else some eb
  | some ea, none => some ea
  | none, b => b

/-- The second `eg.Go` closure of `Run`, line by line: call
`untarResults`; pass its reader to `gzip.NewReader` (a nil reader makes
the eager header read dereference nil — a panic); on gzip error return it
wrapped; parse via `cc.GetTests`, on error return it wrapped; filter,
sort, print; then `err = <-errch` on the channel `untarResults` returned,
which in every path that reaches this line is nil, so the receive blocks
forever. -/
def runTaskB (env : Env) : TaskBResult :=
  let u := untarResults env.stream env.streamEnd
  match u.reader with
  | none => TaskBResult.panickedNilReader
  | some _ =>
    match env.gzipErr with
    | some e => TaskBResult.errRet (wrapErr gzipWrapMsg e)
    | none =>
      match env.parseRes with
      | Except.error e => TaskBResult.errRet (wrapErr parseWrapMsg e)
      | Except.ok tests =>
        let kept := filterTests runFilterPredicate tests
        let sorted := StatusSortedTestCases.sortGo kept
        TaskBResult.deadlocked (printResults sorted)

/-- `func (o *ComplianceResultsOptions) Run() error`. -/
def Run (env : Env) : RunResult :=
  match env.clientErr with
  | some e =>
      { outcome := RunOutcome.ret (some (wrapErr clientWrapMsg e))
        retrieveCalled := false, rendered := none, infoLogged := false }
  | none =>
    match env.statusErr with
    | some e =>
        { outcome := RunOutcome.ret (some (wrapErr statusWrapMsg e))
          retrieveCalled := false, rendered := none, infoLogged := false }
    | none =>
      if env.statusVal = completeStatus then
        match runTaskB env with
        | TaskBResult.panickedNilReader =>
            { outcome := RunOutcome.panicked
              retrieveCalled := true, rendered := none, infoLogged := false }
        | TaskBResult.deadlocked t =>
            { outcome := RunOutcome.deadlock
              retrieveCalled := true, rendered := some t, infoLogged := false }
        | TaskBResult.errRet eb =>
            match egWait env.raceRetrieveFirst env.retrieveErr (some eb) with
            | some e =>
                { outcome := RunOutcome.ret (some (wrapErr waitWrapMsg e))
                  retrieveCalled := true, rendered := none, infoLogged := false }
            | none =>
                { outcome := RunOutcome.ret none
                  retrieveCalled := true, rendered := none, infoLogged := false }
      else
        { outcome := RunOutcome.ret none
          retrieveCalled := false, rendered := none, infoLogged := true }

/-! Concrete fixtures used by witnesses and counterexample evaluations. -/

/-- A skipped JUnit case. -/
def skCase : JUnitTestCase :=
  { name := "should-skip", skippedMark := true, failureMark := false, passedMark := false }

/-- A failed JUnit case. -/
def flCase : JUnitTestCase :=
  { name := "failing-case", skippedMark := false, failureMark := true, passedMark := false }

/-- A passed JUnit case. -/
def psCase : JUnitTestCase :=
  { name := "passing-case", skippedMark := false, failureMark := false, passedMark := true }

/-- A tar entry whose name matches the nested-archive suffix. -/
def entMatch : TarEntry :=
  { name := "results.tar.gz", content := [1, 2, 3], copyErr := none }

/-- A tar entry whose name does not match. -/
def entOther : TarEntry :=
  { name := "plugin.txt", content := [9], copyErr := none }

/-- A second matching entry, placed after the first to show it is ignored. -/
def entSecond : TarEntry :=
  { name := "later.tar.gz", content := [4, 4], copyErr := none }

/-- A matching entry whose body read fails mid-copy. -/
def entCopyFail : TarEntry :=
  { name := "results.tar.gz", content := [7], copyErr := some ("read failed") }

/-- An environment in which every collaborator succeeds and the archive
holds one matching entry. -/
def envComplete : Env :=
  { clientErr := none, statusErr := none, statusVal := completeStatus
    stream := [entOther, entMatch], streamEnd := TarEnd.eof
    retrieveErr := none, gzipErr := none
    parseRes := Except.ok [skCase, flCase, psCase]
    raceRetrieveFirst := false }

/-- `envComplete` with a run status that is not the complete sentinel. -/
def envNotReady : Env :=
  { envComplete with statusVal := "running" }

/-- `envComplete` with an archive whose matching entry's copy fails. -/
def envCopyFail : Env :=
  { envComplete with stream := [entCopyFail] }

/-- `envComplete` with an archive that has no matching entry. -/
def envNoMatch : Env :=
  { envComplete with stream := [entOther] }

/-- `envComplete` with a failing gzip constructor. -/
def envGzipFail : Env :=
  { envComplete with gzipErr := some ("gzip: invalid header") }

/-- `envComplete` with a failing JUnit parser. -/
def envParseFail : Env :=
  { envComplete with parseRes := Except.error ("malformed junit xml") }

/-! Helper lemmas. -/

/-- The append-accumulating fold of `filterTests` is `List.filter`. -/
theorem filterTests_foldl_eq (p : JUnitTestCase → Bool) :
    ∀ (l : List JUnitTestCase) (acc : List JUnitTestCase),
      l.foldl (fun out tc => if p tc then out ++ [tc] else out) acc
        = acc ++ l.filter p := by
  intro l
  induction l with
  | nil => intro acc; simp
  | cons hd tl ih =>
    intro acc
    by_cases hp : p hd
    · simp [List.filter_cons, hp, ih, List.append_assoc]
    · simp [List.filter_cons, hp, ih]

/-- `filterTests` is `List.filter`. -/
theorem filterTests_eq_filter (p : JUnitTestCase → Bool) (l : List JUnitTestCase) :
    filterTests p l = l.filter p := by
  simpa using filterTests_foldl_eq p l []

/-- The channel contents `untarResults` buffers when no entry matches,
per stream terminator. -/
def endingBuf : TarEnd → List String
  | TarEnd.eof => [noArchiveMsg]
  | TarEnd.readErr m => [m]

/-! Claim theorems. -/

/-- Claim C1. The claim fails on the code: with the status complete and an
archive whose single matching entry's body copy fails, the copy error is
buffered only in the channel the goroutine was given, `untarResults`
returns a nil error channel (its `return reader, nil`), and `Run` blocks
forever at `err = <-errch` — the outcome is a deadlock, not a returned
wrapped error, so the copy error is silently lost. With an archive that
has no matching entry, `untarResults` returns a nil reader that `Run`
feeds to `gzip.NewReader`, whose eager header read dereferences the nil
reader: `Run` panics instead of returning the wrapped unwrap error. -/
theorem c1_run_loses_untar_and_copy_errors :
    (Run envCopyFail).outcome = RunOutcome.deadlock ∧
    (untarResults envCopyFail.stream envCopyFail.streamEnd).spawnedChan
        = some { buf := [("read failed" : String)], closed := true } ∧
    (untarResults envCopyFail.stream envCopyFail.streamEnd).errch = none ∧
    (Run envNoMatch).outcome = RunOutcome.panicked := by
  decide

/-- Claim C2. The first half of the claim holds and the second fails: for
a stream whose first entry matches, the background copy goroutine does
close the pipe writer and does close the error channel it was given (its
two defers), even when the copy failed — but the error channel
`untarResults` returns to the caller is nil (`return reader, nil`), so a
receive on the returned channel, as `Run` performs, blocks forever. -/
theorem c2_copy_goroutine_closes_but_caller_chan_nil :
    (untarResults [entCopyFail] TarEnd.eof).spawnedChan
        = some { buf := [("read failed" : String)], closed := true } ∧
    (untarResults [entCopyFail] TarEnd.eof).reader
        = some { data := [7], writerClosed := true } ∧
    (untarResults [entCopyFail] TarEnd.eof).errch = none ∧
    recvBlocksForever (untarResults [entCopyFail] TarEnd.eof).errch = true := by
  decide

/-- Claim C3. Sorting any list of test cases with the
`StatusSortedTestCases` ordering yields a permutation of the input whose
status priorities are pairwise nondecreasing (hence every FAILED precedes
every PASSED, every PASSED every SKIPPED, every SKIPPED every UNKNOWN),
the priority table is FAILED=0, PASSED=1, SKIPPED=2, UNKNOWN=3, and the
input [SKIPPED, FAILED, PASSED] sorts to [FAILED, PASSED, SKIPPED]. -/
theorem c3_sort_orders_by_status_priority (l : List JUnitTestCase) :
    (StatusSortedTestCases.sortGo l).Perm l ∧
    List.Pairwise
      (fun a b => statusesLookup (status a) ≤ statusesLookup (status b))
      (StatusSortedTestCases.sortGo l) ∧
    statusesLookup ("FAILED") = 0 ∧ statusesLookup ("PASSED") = 1 ∧
    statusesLookup ("SKIPPED") = 2 ∧ statusesLookup ("UNKNOWN") = 3 ∧
    StatusSortedTestCases.sortGo [skCase, flCase, psCase] = [flCase, psCase, skCase] := by
  refine ⟨List.perm_insertionSort _ l, ?_, by decide, by decide, by decide, by decide, by decide⟩
  exact List.sorted_insertionSort StatusSortedTestCases.rel l

/-- Claim C4. `filterTests` returns exactly the records satisfying the
predicate, in their original relative order (it equals `List.filter`);
its length is the count of records satisfying the predicate; and for the
predicate `Run` uses, it keeps exactly the non-skipped records. The
embedding is a pure function, so the input list is not mutated and the
empty result is the empty list, never an absent one. -/
theorem c4_filterTests_order_preserving_exact
    (p : JUnitTestCase → Bool) (l : List JUnitTestCase) :
    filterTests p l = l.filter p ∧
    (filterTests p l).length = l.countP p ∧
    filterTests runFilterPredicate l = l.filter (fun tc => ! resultsSkipped tc) := by
  refine ⟨filterTests_eq_filter p l, ?_, filterTests_eq_filter _ l⟩
  rw [filterTests_eq_filter]
  simp [List.countP_eq_length_filter]

/-- Claim C5. When the client and status calls succeed but the fetched
status differs from the complete sentinel, `Run` logs the informational
message and returns nil without calling `RetrieveResults` and without
rendering anything. -/
theorem c5_incomplete_status_returns_nil_without_retrieval
    (env : Env) (h1 : env.clientErr = none) (h2 : env.statusErr = none)
    (h3 : ¬ env.statusVal = completeStatus) :
    Run env = { outcome := RunOutcome.ret none, retrieveCalled := false
                rendered := none, infoLogged := true } := by
  simp [Run, h1, h2, h3]

/-- Witness for C5 at a concrete not-ready environment. -/
theorem c5_incomplete_status_witness :
    Run envNotReady
      = { outcome := RunOutcome.ret none, retrieveCalled := false
          rendered := none, infoLogged := true } :=
  c5_incomplete_status_returns_nil_without_retrieval envNotReady rfl rfl (by decide)

/-- Claim C6. For a tar stream none of whose entries matches the
nested-archive suffix, `untarResults` returns a nil reader, and the
returned error channel carries exactly the "no compliance results archive
found" error when the stream ended with EOF, or the unwrapped read error
itself when `Next` failed otherwise. -/
theorem c6_untar_no_match_delivers_error_nil_reader
    (entries : List TarEntry) (ending : TarEnd)
    (h : entries.all (fun e => !(hasTarGzSuffix e.name)) = true) :
    (untarResults entries ending).reader = none ∧
    (untarResults entries ending).errch
      = some { buf := endingBuf ending, closed := false } := by
  induction entries with
  | nil => cases ending <;> simp [untarResults, endingBuf]
  | cons e rest ih =>
    simp only [List.all_cons, Bool.and_eq_true, Bool.not_eq_true'] at h
    simp [untarResults, h.1, ih (by simpa using h.2)]

/-- Witness for C6 at a concrete one-entry non-matching stream. -/
theorem c6_untar_no_match_witness :
    (untarResults [entOther] TarEnd.eof).reader = none ∧
    (untarResults [entOther] TarEnd.eof).errch
      = some { buf := endingBuf TarEnd.eof, closed := false } :=
  c6_untar_no_match_delivers_error_nil_reader [entOther] TarEnd.eof (by decide)

/-- Claim C7. For a tar stream whose first matching entry is `en`, the
reader `untarResults` returns carries exactly the bytes of that entry's
body (the background copy reads the current tar entry only), and the
entries visited via `Next` are exactly the non-matching prefix plus `en`:
everything after the first match is never visited. -/
theorem c7_untar_match_streams_entry_bytes
    (before : List TarEntry) (en : TarEntry) (after : List TarEntry) (ending : TarEnd)
    (hb : before.all (fun e => !(hasTarGzSuffix e.name)) = true)
    (he : hasTarGzSuffix en.name = true) :
    (untarResults (before ++ en :: after) ending).reader
        = some { data := en.content, writerClosed := true } ∧
    (untarResults (before ++ en :: after) ending).visited = before ++ [en] := by
  induction before with
  | nil => simp [untarResults, he]
  | cons e rest ih =>
    simp only [List.all_cons, Bool.and_eq_true, Bool.not_eq_true'] at hb
    simp [untarResults, hb.1, ih (by simpa using hb.2)]

/-- Witness for C7: a stream with a second matching entry after the first;
the returned bytes are the first match's content and the second entry is
not visited. -/
theorem c7_untar_match_witness :
    (untarResults ([entOther] ++ entMatch :: [entSecond]) TarEnd.eof).reader
        = some { data := entMatch.content, writerClosed := true } ∧
    (untarResults ([entOther] ++ entMatch :: [entSecond]) TarEnd.eof).visited
        = [entOther] ++ [entMatch] :=
  c7_untar_match_streams_entry_bytes [entOther] entMatch [entSecond] TarEnd.eof
    (by decide) (by decide)

/-- Claim C8. In an execution reaching the decompress step (client and
status calls succeed, status complete, unwrap produced a usable reader)
with the retrieval channel reporting no error, a gzip constructor failure
makes `Run` return that error wrapped (with the gzip context, then the
wait context), and a parser failure makes `Run` return that error wrapped
(with the parse context, then the wait context); in both cases nothing is
rendered — the filter/sort/print section is never reached. -/
theorem c8_gzip_parse_failures_return_wrapped (env : Env) (e : String)
    (h1 : env.clientErr = none) (h2 : env.statusErr = none)
    (h3 : env.statusVal = completeStatus)
    (h4 : (untarResults env.stream env.streamEnd).reader.isSome = true)
    (h5 : env.retrieveErr = none) :
    (env.gzipErr = some e →
      Run env = { outcome := RunOutcome.ret (some (wrapErr waitWrapMsg (wrapErr gzipWrapMsg e)))
                  retrieveCalled := true, rendered := none, infoLogged := false }) ∧
    (env.gzipErr = none → env.parseRes = Except.error e →
      Run env = { outcome := RunOutcome.ret (some (wrapErr waitWrapMsg (wrapErr parseWrapMsg e)))
                  retrieveCalled := true, rendered := none, infoLogged := false }) := by
  obtain ⟨p, hp⟩ := Option.isSome_iff_exists.mp h4
  constructor
  · intro hg
    simp [Run, runTaskB, h1, h2, h3, h5, hp, hg, egWait]
  · intro hg hpr
    simp [Run, runTaskB, h1, h2, h3, h5, hp, hg, hpr, egWait]

/-- Witness for C8 at a concrete environment with a failing gzip
constructor. -/
theorem c8_gzip_failure_witness :
    Run envGzipFail
      = { outcome := RunOutcome.ret
            (some (wrapErr waitWrapMsg (wrapErr gzipWrapMsg ("gzip: invalid header"))))
          retrieveCalled := true, rendered := none, infoLogged := false } :=
  (c8_gzip_parse_failures_return_wrapped envGzipFail ("gzip: invalid header")
    rfl rfl rfl (by decide) rfl).1 rfl

/-- Claim C9. `printResults` renders a table whose rows are exactly the
header ("STATUS", "TEST") followed by one (status-label, name) row per
record in list order, with both columns left-aligned. -/
theorem c9_printResults_header_and_rows (l : List JUnitTestCase) :
    (printResults l).rows = ("STATUS", "TEST") :: l.map (fun t => (status t, t.name)) ∧
    (printResults l).align1 = Alignment.left ∧
    (printResults l).align2 = Alignment.left ∧
    (printResults l).rows.length = l.length + 1 := by
  refine ⟨rfl, rfl, rfl, ?_⟩
  simp [printResults]

/-- Claim C10. `status` always returns one of the four labels; the
Skipped predicate takes precedence over Failed, and Failed over Passed;
and the returned label is always a key of the `statuses` priority map, so
the sort comparison's lookup never falls back to the missing-key
default. -/
theorem c10_status_total_and_priority_defined (tc : JUnitTestCase) :
    (status tc = "SKIPPED" ∨ status tc = "FAILED" ∨
      status tc = "PASSED" ∨ status tc = "UNKNOWN") ∧
    (resultsSkipped tc = true → status tc = "SKIPPED") ∧
    (resultsSkipped tc = false → resultsFailed tc = true → status tc = "FAILED") ∧
    (resultsSkipped tc = false → resultsFailed tc = false → resultsPassed tc = true →
      status tc = "PASSED") ∧
    (resultsSkipped tc = false → resultsFailed tc = false → resultsPassed tc = false →
      status tc = "UNKNOWN") ∧
    (statuses.lookup (status tc)).isSome = true := by
  obtain ⟨n, sk, fl, ps⟩ := tc
  cases sk <;> cases fl <;> cases ps <;>
    simp [status, resultsSkipped, resultsFailed, resultsPassed, statuses]

/-- Witness for C10: a record marked skipped, failed and passed at once
is labelled SKIPPED — the Skipped predicate wins. -/
theorem c10_status_witness :
    status { name := "x", skippedMark := true, failureMark := true, passedMark := true }
      = "SKIPPED" :=
  (c10_status_total_and_priority_defined
    { name := "x", skippedMark := true, failureMark := true, passedMark := true }).2.1 rfl

end Jx
